import Mathlib

/-!
Shallow embedding of the password-composition-policy (PCP) engine from
`src/common/src/services/pcp_data.ts` and the checker from
`src/unnamed/part_000` (`check_password` / `check_password_against_rule`).

Modelling conventions, used consistently below:
* JS strings are `List Char`; JS `Set`s are Lean lists (construction sites
  that call `new Set(...)` on possibly-duplicated input go through
  `jsSetOf`, which keeps the first occurrence of each element, matching
  JS `Set` insertion order).  JS objects used as string-keyed maps are
  association lists `List (String × _)`; all tables that model actual JS
  objects have pairwise-distinct keys, since JS objects cannot repeat a key.
* JS numbers on the paths exercised here are integers, modelled as `Int`.
  An optional numeric field is `Option Int`; JS truthiness of such a field
  (`if (x)` / `x && ...`) is `truthy`: `undefined`, `null` and `0` are falsy.
* Exceptions (`throw new RangeError(...)`) are modelled with
  `Except String Unit`; messages are shortened but distinct per throw site,
  and the order of checks follows the source line by line.
* Out-of-range array reads (`a[i]` yielding `undefined`) are modelled with
  `Option`; the loose comparisons `x != y` / `x == y` between a possibly
  `undefined` element and a possibly `undefined` charset index agree with
  `Option`-valued `!=` / `==` (`undefined == undefined` is true in JS).
-/

set_option maxHeartbeats 1000000

abbrev CharsetTable := List (String × List Char)

/-- JS truthiness of an optional numeric field: `undefined`/`0` are falsy. -/
def truthy : Option Int → Bool
  | none => false
  | some n => n != 0

/-- JS truthiness of a plain numeric field. -/
def truthyI (n : Int) : Bool := n != 0

/-- Numeric value of an optional field at a use site guarded by `truthy`. -/
def jnum (x : Option Int) : Int := x.getD 0

/-- `new Set(l)`: drop duplicates, keeping the first occurrence of each
element (JS `Set` iteration follows insertion order). -/
def jsSetAux {α : Type} [BEq α] (seen : List α) : List α → List α
  | [] => []
  | x :: xs =>
    if seen.contains x then jsSetAux seen xs
    else x :: jsSetAux (x :: seen) xs

def jsSetOf {α : Type} [BEq α] (l : List α) : List α := jsSetAux [] l

/-- `areSetsEqual` from pcp_data.ts: reference-equality shortcut, then size
comparison, then membership of every element of `first` in `second`. -/
def areSetsEqual {α : Type} [BEq α] (first second : List α) : Bool :=
  first == second ||
    (first.length == second.length && first.all (fun x => second.contains x))

/-- `isSubset` from pcp_data.ts. -/
def isSubset {α : Type} [BEq α] (subset superset : List α) : Bool :=
  subset == superset ||
    (!(decide (subset.length > superset.length)) &&
      subset.all (fun x => superset.contains x))

/-- `hasSetIntersection` from pcp_data.ts. -/
def hasSetIntersection {α : Type} [BEq α] (first second : List α) : Bool :=
  first.any (fun x => second.contains x)

/-- `getSetIntersection` from pcp_data.ts. -/
def getSetIntersection {α : Type} [BEq α] (first second : List α) : List α :=
  first.filter (fun x => second.contains x)

/-- The `.size` property of a plain JS object (not a `Map`): it does not
exist, so reading it yields `undefined`. -/
def jsObjectSize (_o : CharsetTable) : Option Int := none

/-- `areCharsetsEqual` from pcp_data.ts, modelled faithfully including its
defects: both arguments are plain objects, so `first.size` and
`second.size` are `undefined` and the guard `first.size != second.size`
never fires; the loop then iterates `Object.entries(second)` but compares
each entry of `second` with `second[key]`, i.e. with itself.  For tables
with pairwise-distinct keys (every table that models a JS object) the
function therefore returns `true` on all inputs. -/
def areCharsetsEqual (first second : CharsetTable) : Bool :=
  if jsObjectSize first != jsObjectSize second then false
  else
    second.all (fun kv =>
      (second.any (fun e => e.1 == kv.1)) &&
      areSetsEqual kv.2 (((second.find? (fun e => e.1 == kv.1)).map Prod.snd).getD []))

def ascii_lowercase : List Char := String.toList ("abcdefghijklmnopqrstuvwxyz")

def ascii_uppercase : List Char := String.toList ("ABCDEFGHIJKLMNOPQRSTUVWXYZ")

def digits : List Char := String.toList ("0123456789")

/-- The punctuation string from pcp_data.ts, i.e. the printable ASCII
characters that are neither alphanumeric nor the space: codes 33-47,
58-64, 91-96 and 123-126, in ascending order (the same order as the
source literal). -/
def symbols : List Char :=
  ((List.range 127).filter (fun n =>
    (decide (33 ≤ n) && decide (n ≤ 47)) ||
    (decide (58 ≤ n) && decide (n ≤ 64)) ||
    (decide (91 ≤ n) && decide (n ≤ 96)) ||
    (decide (123 ≤ n) && decide (n ≤ 126)))).map Char.ofNat

def DEFAULT_CHARSETS : CharsetTable :=
  [("lower", ascii_lowercase), ("upper", ascii_uppercase),
   ("digits", digits), ("symbols", symbols)]

def ALPHABET_CHARSETS : CharsetTable :=
  [("alphabet", ascii_lowercase ++ ascii_uppercase),
   ("digits", digits), ("symbols", symbols)]

/-- `PCPCharsetRequirement` (pcp_data.ts).  Field defaults model the JS
constructor, where omitted arguments are `undefined`. -/
structure PCPCharsetRequirement where
  min_required : Option Int := none
  max_allowed : Option Int := none
  max_consecutive : Option Int := none
  required_locations : Option (List Int) := none
  prohibited_locations : Option (List Int) := none
deriving Repr, DecidableEq

/-- `PCPSubsetRequirement` (pcp_data.ts). -/
structure PCPSubsetRequirement where
  count : Int
  options : Option (List String) := none
deriving Repr, DecidableEq

/-- `PCPRule` (pcp_data.ts).  `min_length` defaults to 1 as in the JS
constructor (`min_length ?? 1`). -/
structure PCPRule where
  min_length : Int := 1
  max_length : Option Int := none
  max_consecutive : Option Int := none
  prohibited_substrings : Option (List String) := none
  require : Option (List String) := none
  require_subset : Option PCPSubsetRequirement := none
  charset_requirements : Option (List (String × PCPCharsetRequirement)) := none
deriving Repr, DecidableEq

/-- `PCP` (pcp_data.ts): rules plus a charset table. -/
structure PCP where
  rules : List PCPRule
  charsets : CharsetTable := DEFAULT_CHARSETS
deriving Repr, DecidableEq

/-- `if (cond) throw new RangeError(msg)`. -/
def checkIf (cond : Bool) (msg : String) : Except String Unit :=
  if cond then Except.error msg else Except.ok ()

/-- Sequencing of two checks: the first raised error wins. -/
def seqE (a b : Except String Unit) : Except String Unit :=
  match a with
  | Except.error e => Except.error e
  | Except.ok _ => b

/-- A `for` loop of checks over a list: stops at the first error. -/
def allOk {α : Type} (f : α → Except String Unit) : List α → Except String Unit
  | [] => Except.ok ()
  | x :: xs =>
    match f x with
    | Except.error e => Except.error e
    | Except.ok _ => allOk f xs

/-- `PCPCharsetRequirement._validate` (pcp_data.ts, lines 530-559).  Checks
run in source order.  Note the location-feasibility test is exactly the
source condition `(location >= 0 && location >= min_length) ||
(location < 0 && -location + 1 >= min_length)`. -/
def PCPCharsetRequirement.validateCR (c : PCPCharsetRequirement)
    (min_length : Int) : Except String Unit :=
  seqE (checkIf (truthy c.min_required && decide (jnum c.min_required < 1))
        ("min_required may not be less than 1"))
  (seqE (checkIf (truthy c.max_allowed && decide (jnum c.max_allowed < 1))
        ("max_allowed may not be less than 1"))
  (seqE (checkIf (truthy c.max_consecutive && decide (jnum c.max_consecutive < 1))
        ("max_consecutive may not be less than 1"))
  (seqE (match c.required_locations with
         | some locs => allOk (fun loc =>
             checkIf ((decide (loc ≥ 0) && decide (loc ≥ min_length)) ||
                      (decide (loc < 0) && decide (-loc + 1 ≥ min_length)))
               ("required_locations contains a location that is not guaranteed to exist"))
             locs
         | none => Except.ok ())
  (seqE (checkIf (c.required_locations.isSome && c.prohibited_locations.isSome &&
                  (c.required_locations.getD []).any
                    (fun x => (c.prohibited_locations.getD []).contains x))
         ("required_locations and prohibited_locations may not overlap"))
  (if truthy c.max_allowed then
     seqE (checkIf (truthy c.min_required &&
                    decide (jnum c.max_allowed < jnum c.min_required))
           ("max_allowed cannot be less than min_required"))
          (checkIf (c.required_locations.isSome &&
                    decide (((c.required_locations.getD []).length : Int) > jnum c.max_allowed))
           ("required_locations cannot be more than max_allowed"))
   else Except.ok ())))))

/-- `PCPSubsetRequirement._validate` (pcp_data.ts, lines 444-462). -/
def PCPSubsetRequirement.validateSR (s : PCPSubsetRequirement)
    (charsets : List String) : Except String Unit :=
  seqE (checkIf (decide (s.count < 1)) ("count may not be less than 1"))
  (match s.options with
   | some opts =>
     seqE (checkIf (decide (opts.length < 2))
           ("options must include at least two charsets"))
     (seqE (checkIf (opts.any (fun x => !(charsets.contains x)))
            ("options includes invalid charsets"))
           (checkIf (decide (s.count ≥ (opts.length : Int)))
            ("count may not be greater than or equal to the number of options")))
   | none =>
     checkIf (decide (s.count ≥ (charsets.length : Int)))
       ("count may not be greater than or equal to the number of available character sets"))

/-- `PCPRule._validate` (pcp_data.ts, lines 354-402).  Checks run in source
order.  `subset_charsets` is `this.require_subset?.options ?? charsets`:
when the rule has no subset requirement at all (or one without options),
it falls back to the full charset table. -/
def PCPRule.validateRule (r : PCPRule) (charsets : List String) : Except String Unit :=
  seqE (checkIf (decide (r.min_length < 1))
        ("min_length may not be less than 1"))
  (seqE (checkIf (truthy r.max_length && decide (jnum r.max_length < 1))
        ("max_length may not be less than 1"))
  (seqE (checkIf (truthy r.max_length && truthyI r.min_length &&
                  decide (jnum r.max_length < r.min_length))
        ("max_length cannot be less than min_length"))
  (seqE (checkIf (truthy r.max_consecutive && decide (jnum r.max_consecutive < 1))
        ("max_consecutive may not be less than 1"))
  (seqE (checkIf (r.require.isSome && !(isSubset (r.require.getD []) charsets))
        ("require includes invalid charsets"))
  (seqE (match r.require_subset with
         | some s => s.validateSR charsets
         | none => Except.ok ())
  (seqE (match r.charset_requirements with
         | some m => allOk (fun kv =>
             seqE (checkIf (!(charsets.contains kv.1))
                   ("charset_requirements key is not a valid charset name"))
                  (kv.2.validateCR r.min_length)) m
         | none => Except.ok ())
  (seqE (checkIf (hasSetIntersection (r.require.getD [])
                   ((r.require_subset.bind PCPSubsetRequirement.options).getD charsets))
        ("require and require_subset cannot have overlapping charset requirements"))
  (match r.charset_requirements with
   | some m => allOk (fun kv =>
       if (r.require.getD []).contains kv.1 ||
          ((r.require_subset.bind PCPSubsetRequirement.options).getD charsets).contains kv.1
       then
         seqE (checkIf (truthy kv.2.min_required)
               ("require, require_subset, and charset_requirements cannot overlap"))
              (checkIf (truthy kv.2.max_allowed && (jnum kv.2.max_allowed == 0))
               ("max_allowed cannot be 0 when the charset is used in require or require_subset"))
       else Except.ok ()) m
   | none => Except.ok ()))))))))

/-- `new Set(Object.keys(this.charsets))`. -/
def charsetKeys (t : CharsetTable) : List String := jsSetOf (t.map Prod.fst)

/-- The double loop over charset pairs in `PCP.validate`
(pcp_data.ts, lines 247-254). -/
def pairwiseCheck : CharsetTable → Except String Unit
  | [] => Except.ok ()
  | kv :: rest =>
    seqE (allOk (fun kv2 =>
            checkIf (hasSetIntersection kv.2 kv2.2)
              ("charsets may not have shared characters")) rest)
         (pairwiseCheck rest)

/-- `PCP.validate` (pcp_data.ts, lines 237-263). -/
def PCP.validate (p : PCP) : Except String Unit :=
  seqE (allOk (fun kv => checkIf kv.2.isEmpty ("charsets must not be empty")) p.charsets)
  (seqE (pairwiseCheck p.charsets)
  (seqE (checkIf (decide (p.rules.length < 1)) ("rules must contain at least one rule"))
        (allOk (fun r => r.validateRule (charsetKeys p.charsets)) p.rules)))

/-- Position of the first list entry satisfying `p`, starting from index
`i`: models the index-building loops of `check_password`. -/
def findIdxAux {α : Type} (p : α → Bool) : List α → Nat → Option Nat
  | [], _ => none
  | x :: xs, i => if p x then some i else findIdxAux p xs (i + 1)

/-- `charset_mapping[name]`: the index of `name` among the table keys
(`undefined`, i.e. `none`, when the name is not a key). -/
def charsetIdx (t : CharsetTable) (name : String) : Option Nat :=
  findIdxAux (fun kv => kv.1 == name) t 0

/-- Classification of one password character: the index of the first
charset containing it (pcp_data checker, part_000 lines 21-35). -/
def classifyChar (t : CharsetTable) (c : Char) : Option Nat :=
  findIdxAux (fun kv => kv.2.contains c) t 0

/-- The classification loop of `check_password`: `none` as soon as some
character belongs to no charset. -/
def classifyAll (t : CharsetTable) : List Char → Option (List Nat)
  | [] => some []
  | c :: cs =>
    match classifyChar t c with
    | none => none
    | some i =>
      match classifyAll t cs with
      | none => none
      | some rest => some (i :: rest)

/-- `mapped_password[i]` with a JS index: negative or out-of-range reads
yield `undefined`. -/
def jsIndex (l : List Nat) (i : Int) : Option Nat :=
  if i < 0 then none else l.get? i.toNat

/-- `mapped_password.includes(charset_mapping[r])`: `includes(undefined)`
on an array of numbers is `false`. -/
def memIdx (mapped : List Nat) (idx : Option Nat) : Bool :=
  match idx with
  | some i => mapped.contains i
  | none => false

/-- `mapped_password.filter(c => c == charset_index).length`: comparing a
number with `undefined` is `false`. -/
def countIdx (mapped : List Nat) (idx : Option Nat) : Nat :=
  match idx with
  | some i => (mapped.filter (fun c => c == i)).length
  | none => 0

/-- The raw-character `max_consecutive` loop of
`check_password_against_rule` (part_000 lines 69-84): `true` iff some run
of identical characters exceeds `limit`.  `last` starts as the empty
string, which never equals a single character (`none`). -/
def rawRunAux (limit : Int) (last : Option Char) (cnt : Int) : List Char → Bool
  | [] => false
  | c :: rest =>
    if some c == last then
      if cnt + 1 > limit then true else rawRunAux limit (some c) (cnt + 1) rest
    else rawRunAux limit (some c) 1 rest

def rawRunExceeds (limit : Int) (password : List Char) : Bool :=
  rawRunAux limit none 0 password

/-- The per-charset `max_consecutive` loop (part_000 lines 120-132). -/
def charsetRunAux (idx : Option Nat) (limit : Int) (cnt : Int) : List Nat → Bool
  | [] => false
  | i :: rest =>
    if some i == idx then
      if cnt + 1 > limit then true else charsetRunAux idx limit (cnt + 1) rest
    else charsetRunAux idx limit 0 rest

def charsetRunExceeds (idx : Option Nat) (limit : Int) (mapped : List Nat) : Bool :=
  charsetRunAux idx limit 0 mapped

/-- `location >= 0 ? location : password.length + location`. -/
def jsCorrect (len loc : Int) : Int := if loc ≥ 0 then loc else len + loc

/-- Boolean list-prefix test. -/
def isPrefixOfB {α : Type} [BEq α] : List α → List α → Bool
  | [], _ => true
  | _ :: _, [] => false
  | x :: xs, y :: ys => x == y && isPrefixOfB xs ys

/-- `haystack.includes(needle)`: contiguous-substring containment, as for
JS strings (the empty string is contained in every string). -/
def jsIncludes {α : Type} [BEq α] (needle : List α) : List α → Bool
  | [] => needle.isEmpty
  | y :: ys => isPrefixOfB needle (y :: ys) || jsIncludes needle ys

/-- The `charset_requirements` clauses of `check_password_against_rule`
(part_000 lines 106-156) for one named charset.  Note the
required-locations test keeps the source's double check of location 0:
`(location >= 0 && mapped[location] != idx) ||
(location <= 0 && mapped[len + location] != idx)`. -/
def crSatisfied (password : List Char) (mapped : List Nat) (idx : Option Nat)
    (c : PCPCharsetRequirement) : Bool :=
  (!(truthy c.min_required &&
     decide ((countIdx mapped idx : Int) < jnum c.min_required))) &&
  (!(truthy c.max_allowed &&
     decide ((countIdx mapped idx : Int) > jnum c.max_allowed))) &&
  (!(truthy c.max_consecutive &&
     charsetRunExceeds idx (jnum c.max_consecutive) mapped)) &&
  (!(match c.required_locations with
     | some locs => locs.any (fun loc =>
         (decide (loc ≥ 0) && (jsIndex mapped loc != idx)) ||
         (decide (loc ≤ 0) && (jsIndex mapped ((password.length : Int) + loc) != idx)))
     | none => false)) &&
  (!(match c.prohibited_locations with
     | some locs => locs.any (fun loc =>
         decide (jsCorrect (password.length : Int) loc ≥ 0) &&
         decide ((password.length : Int) > jsCorrect (password.length : Int) loc) &&
         (jsIndex mapped (jsCorrect (password.length : Int) loc) == idx))
     | none => false))

/-- `check_password_against_rule` (part_000 lines 54-160).  The source
returns `false` at the first failing clause of a pure computation, which
is the conjunction of all clauses. -/
def check_password_against_rule (password : List Char) (rule : PCPRule)
    (t : CharsetTable) (mapped : List Nat) : Bool :=
  (!(decide ((password.length : Int) < rule.min_length))) &&
  (!(truthy rule.max_length && decide ((password.length : Int) > jnum rule.max_length))) &&
  (!(truthy rule.max_consecutive && rawRunExceeds (jnum rule.max_consecutive) password)) &&
  (!(match rule.prohibited_substrings with
     | some subs => subs.any (fun s => jsIncludes (String.toList s) password)
     | none => false)) &&
  (!(match rule.require with
     | some req => req.any (fun name => !(memIdx mapped (charsetIdx t name)))
     | none => false)) &&
  (!(match rule.require_subset with
     | some sr =>
       decide ((((match sr.options with
                  | some opts => opts.map (fun o => charsetIdx t o)
                  | none => (List.range t.length).map some).filter
                   (fun o => memIdx mapped o)).length : Int) < sr.count)
     | none => false)) &&
  (match rule.charset_requirements with
   | some m => m.all (fun kv => crSatisfied password mapped (charsetIdx t kv.1) kv.2)
   | none => true)

/-- `check_password` (part_000 lines 9-44): validate, classify every
character (rejecting on an unrecognized one), then OR over the rules. -/
def check_password (password : List Char) (pcp : PCP) : Except String Bool :=
  match pcp.validate with
  | Except.error e => Except.error e
  | Except.ok _ =>
    match classifyAll pcp.charsets password with
    | none => Except.ok false
    | some mapped =>
      Except.ok (pcp.rules.any
        (fun r => check_password_against_rule password r pcp.charsets mapped))

/-!
Serializer.  `PCP.stringify` builds a JSON value and prints it with
`JSON.stringify`; `PCP.parse` applies `JSON.parse` and walks the tree.
Since `JSON.parse (JSON.stringify v)` is the identity on JSON trees
(`to_json` drops `undefined`-valued keys exactly as `JSON.stringify`
would), we model both sides at the tree level with the type `Js`.
-/

inductive Js where
  | null : Js
  | num : Int → Js
  | str : String → Js
  | arr : List Js → Js
  | obj : List (String × Js) → Js

/-- JS truthiness of an optional JSON value (`"k" in data && data["k"]`):
a missing key, `null`, `0` and the empty string are falsy; arrays and
objects are always truthy. -/
def jsTruthy : Option Js → Bool
  | none => false
  | some Js.null => false
  | some (Js.num n) => n != 0
  | some (Js.str s) => !s.isEmpty
  | some (Js.arr _) => true
  | some (Js.obj _) => true

/-- `data["k"]` on a JSON object (reads of non-objects are outside the
shapes the serializer produces and yield `undefined`). -/
def objGet : Js → String → Option Js
  | Js.obj o, k => (o.find? (fun kv => kv.1 == k)).map Prod.snd
  | _, _ => none

/-- A numeric field: `null` and a missing key behave alike (falsy,
defaulted by `??`) once stored, so both map to `none`. -/
def jsOptNum (x : Option Js) : Option Int :=
  match x with
  | some (Js.num n) => some n
  | _ => none

/-- `new Set(data["k"])` for an array of strings.  A missing key or `null`
gives the empty set (`new Set(undefined)` is empty); non-array truthy
shapes would throw in JS and are outside the shapes the serializer
produces. -/
def jsStrList (x : Option Js) : List String :=
  match x with
  | some (Js.arr l) =>
    jsSetOf (l.filterMap (fun v => match v with
      | Js.str s => some s
      | _ => none))
  | _ => []

/-- `new Set(data["k"])` for an array of integers. -/
def jsIntList (x : Option Js) : List Int :=
  match x with
  | some (Js.arr l) =>
    jsSetOf (l.filterMap (fun v => match v with
      | Js.num n => some n
      | _ => none))
  | _ => []

/-- `PCPCharsetRequirement._from_json` (pcp_data.ts, lines 506-522). -/
def PCPCharsetRequirement.fromJson (j : Js) : PCPCharsetRequirement :=
  { min_required := jsOptNum (objGet j ("min_required"))
    max_allowed := jsOptNum (objGet j ("max_allowed"))
    max_consecutive := jsOptNum (objGet j ("max_consecutive"))
    required_locations :=
      if jsTruthy (objGet j ("required_locations"))
      then some (jsIntList (objGet j ("required_locations"))) else none
    prohibited_locations :=
      if jsTruthy (objGet j ("prohibited_locations"))
      then some (jsIntList (objGet j ("prohibited_locations"))) else none }

/-- `PCPSubsetRequirement._from_json` (pcp_data.ts, lines 431-436),
modelled faithfully including its defect: when an `options` key is
present and truthy, the code builds the set from
`data["required_locations"]` — a key a subset requirement does not carry —
so the resulting `options` is the empty set.  A missing `count` is outside
the shapes the serializer produces (it always emits `count`) and is
modelled as 0. -/
def PCPSubsetRequirement.fromJson (j : Js) : PCPSubsetRequirement :=
  { count := (jsOptNum (objGet j ("count"))).getD 0
    options :=
      if jsTruthy (objGet j ("options"))
      then some (jsStrList (objGet j ("required_locations"))) else none }

/-- `PCPRule._from_json` (pcp_data.ts, lines 317-346) combined with the
constructor defaults (`min_length ?? 1`). -/
def PCPRule.fromJson (j : Js) : PCPRule :=
  { min_length := (jsOptNum (objGet j ("min_length"))).getD 1
    max_length := jsOptNum (objGet j ("max_length"))
    max_consecutive := jsOptNum (objGet j ("max_consecutive"))
    prohibited_substrings :=
      if jsTruthy (objGet j ("prohibited_substrings"))
      then some (jsStrList (objGet j ("prohibited_substrings"))) else none
    require :=
      if jsTruthy (objGet j ("require"))
      then some (jsStrList (objGet j ("require"))) else none
    require_subset :=
      match objGet j ("require_subset") with
      | some (Js.obj o) => some (PCPSubsetRequirement.fromJson (Js.obj o))
      | _ => none
    charset_requirements :=
      match objGet j ("charset_requirements") with
      | some (Js.obj o) =>
        some (o.map (fun kv => (kv.1, PCPCharsetRequirement.fromJson kv.2)))
      | _ => none }

/-- `uses_alphabet_charset` (pcp_data.ts, lines 33-41). -/
def uses_alphabet_charset (rules : List PCPRule) : Bool :=
  rules.any (fun rule =>
    (match rule.require with
     | some s => s.contains ("alphabet")
     | none => false) ||
    (match rule.require_subset.bind PCPSubsetRequirement.options with
     | some s => s.contains ("alphabet")
     | none => false) ||
    (match rule.charset_requirements with
     | some m => m.any (fun kv => kv.1 == "alphabet")
     | none => false))

/-- `charsets[key] = ...` on a JS object: replace in place if the key
exists, else append. -/
def jsObjSet (cs : CharsetTable) (k : String) (v : List Char) : CharsetTable :=
  if cs.any (fun e => e.1 == k)
  then cs.map (fun e => if e.1 == k then (e.1, v) else e)
  else cs ++ [(k, v)]

/-- `PCP.parse` (pcp_data.ts, lines 209-231) at the JSON-tree level.
The `charsets` diff treats `null` and every non-empty string as deletion;
only an empty string installs a (necessarily empty) charset.  A diff value
of any other shape would throw in JS and is outside the shapes the
serializer produces. -/
def PCP.parseJs (j : Js) : PCP :=
  let rules :=
    match objGet j ("rules") with
    | some (Js.arr l) => l.map PCPRule.fromJson
    | some v => if jsTruthy (some v) then [] else [PCPRule.fromJson j]
    | none => [PCPRule.fromJson j]
  let base := if uses_alphabet_charset rules then ALPHABET_CHARSETS else DEFAULT_CHARSETS
  let charsets :=
    match objGet j ("charsets") with
    | some (Js.obj o) =>
      o.foldl (fun cs kv =>
        match kv.2 with
        | Js.null => cs.filter (fun e => e.1 != kv.1)
        | Js.str s =>
          if s.length > 0 then cs.filter (fun e => e.1 != kv.1)
          else jsObjSet cs kv.1 []
        | _ => cs) base
    | _ => base
  { rules := rules, charsets := charsets }

/-- `to_json` of a set of strings: a non-empty `Set` becomes an array; an
empty `Set` falls into the `instanceof Object` branch and serializes as
the empty object. -/
def strSetJs (s : List String) : Js :=
  if s.length > 0 then Js.arr (s.map Js.str) else Js.obj []

def intSetJs (s : List Int) : Js :=
  if s.length > 0 then Js.arr (s.map Js.num) else Js.obj []

/-- `to_json` of a `PCPSubsetRequirement`: fields in declaration order,
`undefined` fields dropped (as `JSON.stringify` would). -/
def PCPSubsetRequirement.toJson (s : PCPSubsetRequirement) : Js :=
  Js.obj ([("count", Js.num s.count)] ++
    (match s.options with
     | some o => [("options", strSetJs o)]
     | none => []))

def PCPCharsetRequirement.toJson (c : PCPCharsetRequirement) : Js :=
  Js.obj
    ((match c.min_required with
      | some n => [("min_required", Js.num n)]
      | none => []) ++
     (match c.max_allowed with
      | some n => [("max_allowed", Js.num n)]
      | none => []) ++
     (match c.max_consecutive with
      | some n => [("max_consecutive", Js.num n)]
      | none => []) ++
     (match c.required_locations with
      | some l => [("required_locations", intSetJs l)]
      | none => []) ++
     (match c.prohibited_locations with
      | some l => [("prohibited_locations", intSetJs l)]
      | none => []))

def PCPRule.toJson (r : PCPRule) : Js :=
  Js.obj
    ([("min_length", Js.num r.min_length)] ++
     (match r.max_length with
      | some n => [("max_length", Js.num n)]
      | none => []) ++
     (match r.max_consecutive with
      | some n => [("max_consecutive", Js.num n)]
      | none => []) ++
     (match r.prohibited_substrings with
      | some l => [("prohibited_substrings", strSetJs l)]
      | none => []) ++
     (match r.require with
      | some l => [("require", strSetJs l)]
      | none => []) ++
     (match r.require_subset with
      | some s => [("require_subset", s.toJson)]
      | none => []) ++
     (match r.charset_requirements with
      | some m => [("charset_requirements", Js.obj (m.map (fun kv => (kv.1, kv.2.toJson))))]
      | none => []))

/-- `PCP.stringify` (pcp_data.ts, lines 178-202) at the JSON-tree level. -/
def PCP.stringifyJs (p : PCP) : Js :=
  if areCharsetsEqual p.charsets DEFAULT_CHARSETS ||
     areCharsetsEqual p.charsets ALPHABET_CHARSETS then
    match p.rules with
    | [r] => r.toJson
    | rs => Js.obj [("rules", Js.arr (rs.map PCPRule.toJson))]
  else
    let defaults :=
      if (p.charsets.map Prod.fst).contains ("alphabet")
      then ALPHABET_CHARSETS else DEFAULT_CHARSETS
    let part1 := p.charsets.filterMap (fun kv =>
      if !(defaults.any (fun d => d.1 == kv.1)) ||
         !(areSetsEqual kv.2 (((defaults.find? (fun d => d.1 == kv.1)).map Prod.snd).getD []))
      then some (kv.1, Js.str (String.mk kv.2)) else none)
    let part2 := defaults.filterMap (fun kv =>
      if !(p.charsets.any (fun e => e.1 == kv.1))
      then some (kv.1, Js.null) else none)
    Js.obj [("charsets", Js.obj (part1 ++ part2)),
            ("rules", Js.arr (p.rules.map PCPRule.toJson))]

/-!
Concrete policies referenced by the claims.
-/

/-- Scenario A: default charsets, one rule requiring upper and digits. -/
def policyScenarioA : PCP :=
  { rules := [{ min_length := 8, require := some [("upper"), ("digits")] }] }

/-- The round-trip policy: one rule with a subset requirement carrying an
explicit options set. -/
def policySubsetOptions : PCP :=
  { rules := [{ min_length := 1,
                require_subset := some
                  { count := 2,
                    options := some [("lower"), ("upper"), ("digits")] } }] }

/-- A policy whose charset table differs from both built-in presets. -/
def policyCustomCharsets : PCP :=
  { rules := [{ min_length := 1 }], charsets := [("lower", [Char.ofNat 97])] }

/-- Scenario E: default charsets, `min_length` 2, digits required at
positions 0 and -1. -/
def policyScenarioE : PCP :=
  { rules := [{ min_length := 2,
                charset_requirements :=
                  some [(("digits"),
                         { required_locations := some [0, -1] })] }] }

/-- A small three-charset table. -/
def smallTable : CharsetTable :=
  [("lower", [Char.ofNat 97]), ("upper", [Char.ofNat 65]), ("digits", [Char.ofNat 48])]

/-- A policy whose rule sets `max_allowed = 0` on the charset `digits`
that is already required via `require`. -/
def policyMaxAllowedZero : PCP :=
  { rules := [{ min_length := 1,
                require := some [("digits")],
                require_subset := some
                  { count := 1,
                    options := some [("lower"), ("upper")] },
                charset_requirements :=
                  some [(("digits"), { max_allowed := some 0 })] }],
    charsets := smallTable }

/-- A minimal valid single-rule policy over a one-charset table. -/
def tinyPolicy : PCP :=
  { rules := [{ min_length := 1 }], charsets := [("a", [Char.ofNat 97])] }

/-- A requirement placing the owning charset at position 0. -/
def reqLocationZero : PCPCharsetRequirement := { required_locations := some [0] }

def ruleLocationZero : PCPRule :=
  { min_length := 1, charset_requirements := some [(("d"), reqLocationZero)] }

/-- A valid policy whose rule requires charset `d` at position 0. -/
def policyLocationZero : PCP :=
  { rules := [ruleLocationZero], charsets := [("d", [Char.ofNat 48])] }

/-- A valid two-rule policy over a two-charset table. -/
def twinTable : CharsetTable := [("a", [Char.ofNat 97]), ("b", [Char.ofNat 98])]

def twinRule1 : PCPRule := { min_length := 2 }

def twinRule2 : PCPRule := { min_length := 1 }

/-!
Structural lemmas about the validator combinators.
-/

theorem seqE_ok_iff {a b : Except String Unit} :
    seqE a b = Except.ok () ↔ a = Except.ok () ∧ b = Except.ok () := by
  cases a with
  | error e => simp [seqE]
  | ok u => cases u; simp [seqE]

theorem checkIf_ok_iff {c : Bool} {m : String} :
    checkIf c m = Except.ok () ↔ c = false := by
  cases c <;> simp [checkIf]

theorem allOk_cons {α : Type} {f : α → Except String Unit} {x : α} {xs : List α} :
    allOk f (x :: xs) = Except.ok () ↔ f x = Except.ok () ∧ allOk f xs = Except.ok () := by
  cases hfx : f x with
  | error e => simp [allOk, hfx]
  | ok u => cases u; simp [allOk, hfx]

theorem allOk_mem {α : Type} {f : α → Except String Unit} {l : List α}
    (h : allOk f l = Except.ok ()) {x : α} (hx : x ∈ l) : f x = Except.ok () := by
  induction l with
  | nil => cases hx
  | cons y ys ih =>
    rw [allOk_cons] at h
    cases hx with
    | head => exact h.1
    | tail _ hx' => exact ih h.2 hx'

theorem jsSetAux_subset {α : Type} [BEq α] {l seen : List α} {x : α}
    (hx : x ∈ jsSetAux seen l) : x ∈ l := by
  induction l generalizing seen with
  | nil => cases hx
  | cons y ys ih =>
    by_cases h : seen.contains y = true
    · simp only [jsSetAux, h, if_pos] at hx
      exact List.mem_cons_of_mem _ (ih hx)
    · simp only [jsSetAux, h, if_neg, Bool.not_eq_true] at hx
      cases hx with
      | head => exact List.mem_cons_self _ _
      | tail _ hx' => exact List.mem_cons_of_mem _ (ih hx')

theorem findIdxAux_isSome {α : Type} {p : α → Bool} {l : List α} {x : α}
    (hx : x ∈ l) (hp : p x = true) : ∀ i, (findIdxAux p l i).isSome = true := by
  induction l with
  | nil => cases hx
  | cons y ys ih =>
    intro i
    simp only [findIdxAux]
    by_cases h : p y = true
    · simp [h]
    · rw [if_neg h]
      cases hx with
      | head => exact absurd hp h
      | tail _ hx' => exact ih hx' (i + 1)

theorem findIdxAux_eq_none {α : Type} {p : α → Bool} {l : List α}
    (h : ∀ x ∈ l, p x = false) : ∀ i, findIdxAux p l i = none := by
  induction l with
  | nil => intro i; rfl
  | cons y ys ih =>
    intro i
    simp only [findIdxAux, h y (List.mem_cons_self y ys), Bool.false_eq_true, if_neg,
      not_false_eq_true]
    exact ih (fun x hx => h x (List.mem_cons_of_mem _ hx)) (i + 1)

theorem classifyAll_eq_none {t : CharsetTable} {pw : List Char} {c : Char}
    (hc : c ∈ pw) (h : classifyChar t c = none) : classifyAll t pw = none := by
  induction pw with
  | nil => cases hc
  | cons y ys ih =>
    cases hc with
    | head => simp [classifyAll, h]
    | tail _ hc' =>
      simp only [classifyAll]
      cases hy : classifyChar t y with
      | none => rfl
      | some i => simp [ih hc']

/-!
Claim theorems.
-/

/-- Claim C1.  The spec expects Scenario A to return booleans
(`check("Password1") == true`, `check("password") == false`,
`check("abcd1234") == false`).  In the code, `PCPRule._validate` computes
`subset_charsets = this.require_subset?.options ?? charsets`, so a rule
with a non-empty `require` and no `require_subset` always intersects
`require` with the full charset table and validation throws; `check`
therefore raises on all three passwords instead of returning a boolean. -/
theorem claim_C1_scenarioA_raises :
    PCP.validate policyScenarioA =
      Except.error ("require and require_subset cannot have overlapping charset requirements") ∧
    check_password (String.toList ("Password1")) policyScenarioA =
      Except.error ("require and require_subset cannot have overlapping charset requirements") ∧
    check_password (String.toList ("password")) policyScenarioA =
      Except.error ("require and require_subset cannot have overlapping charset requirements") ∧
    check_password (String.toList ("abcd1234")) policyScenarioA =
      Except.error ("require and require_subset cannot have overlapping charset requirements") :=
  ⟨rfl, rfl, rfl, rfl⟩

/-- Claim C2.  The round-trip property fails: on the original policy with
an explicit subset-options set, `check("aA")` returns `true`, but
`PCPSubsetRequirement._from_json` reads `data["required_locations"]`
instead of `data["options"]`, so the re-parsed policy carries an empty
options set and every `check` on it raises a consistency error. -/
theorem claim_C2_roundtrip_raises :
    check_password (String.toList ("aA")) policySubsetOptions = Except.ok true ∧
    (PCP.parseJs (PCP.stringifyJs policySubsetOptions)).rules.map
        (fun r => r.require_subset.bind PCPSubsetRequirement.options) = [some []] ∧
    check_password (String.toList ("aA")) (PCP.parseJs (PCP.stringifyJs policySubsetOptions)) =
      Except.error ("options must include at least two charsets") :=
  ⟨rfl, rfl, rfl⟩

/-- Claim C3.  `stringify` never emits a charsets diff: `areCharsetsEqual`
reads the non-existent `.size` of plain objects (`undefined` on both
sides) and compares the entries of its second argument with themselves,
so it returns `true` even for a table that differs from both presets, and
`stringify` always takes the omit-charsets branch. -/
theorem claim_C3_stringify_omits_charsets :
    areCharsetsEqual policyCustomCharsets.charsets DEFAULT_CHARSETS = true ∧
    PCP.stringifyJs policyCustomCharsets = Js.obj [("min_length", Js.num 1)] :=
  ⟨rfl, rfl⟩

/-- Claim C4.  Scenario E does not behave as specified: validation of the
policy `min_length = 2`, `required_locations = [0, -1]` raises (the
location `-1` fails the feasibility test `-location + 1 >= min_length`),
so `check("1a2")` raises rather than returning `true`; and even the bare
rule evaluation (with validation bypassed) returns `false` on `"1a2"`
because location 0 is also tested at index `len(password)`. -/
theorem claim_C4_required_locations_scenarioE :
    PCP.validate policyScenarioE =
      Except.error ("required_locations contains a location that is not guaranteed to exist") ∧
    check_password (String.toList ("1a2")) policyScenarioE =
      Except.error ("required_locations contains a location that is not guaranteed to exist") ∧
    check_password_against_rule (String.toList ("1a2")) (policyScenarioE.rules.headD {})
      DEFAULT_CHARSETS [2, 0, 2] = false :=
  ⟨rfl, rfl, rfl⟩

/-- Claim C5.  The claim states the feasibility rule for a negative
position `p`: accepted iff `min_length ≥ -p`.  The code instead throws
when `-p + 1 ≥ min_length`, i.e. accepts only when `min_length ≥ -p + 2`:
for `p = -1` the claim accepts at `min_length = 1` and `min_length = 2`
(index `len - 1` always exists), but the code raises there and only
accepts from `min_length = 3` on. -/
theorem claim_C5_negative_location_validation :
    PCPCharsetRequirement.validateCR { required_locations := some [-1] } 1 =
      Except.error ("required_locations contains a location that is not guaranteed to exist") ∧
    PCPCharsetRequirement.validateCR { required_locations := some [-1] } 2 =
      Except.error ("required_locations contains a location that is not guaranteed to exist") ∧
    PCPCharsetRequirement.validateCR { required_locations := some [-1] } 3 = Except.ok () :=
  ⟨rfl, rfl, rfl⟩

/-- Claim C8.  The guard `value.max_allowed && value.max_allowed == 0` is
never true (`0` is falsy in JS), so a rule whose charset requirement sets
`max_allowed = 0` on the already-required charset `digits` passes
validation instead of raising — and the zero bound is not even enforced:
a password with one digit is accepted. -/
theorem claim_C8_max_allowed_zero_passes :
    PCP.validate policyMaxAllowedZero = Except.ok () ∧
    check_password (String.toList ("a0")) policyMaxAllowedZero = Except.ok true :=
  ⟨rfl, rfl⟩

/-- Claim C6.  OR semantics across rules: whenever the two-rule policy
validates, `check` on `[r1, r2]` is the boolean OR of `check` on the two
single-rule policies over the same table (all three checks succeed, since
each rule of a valid policy forms a valid single-rule policy). -/
theorem claim_C6_or_semantics (pw : List Char) (r1 r2 : PCPRule) (cs : CharsetTable)
    (h : PCP.validate { rules := [r1, r2], charsets := cs } = Except.ok ()) :
    ∃ b1 b2,
      check_password pw { rules := [r1], charsets := cs } = Except.ok b1 ∧
      check_password pw { rules := [r2], charsets := cs } = Except.ok b2 ∧
      check_password pw { rules := [r1, r2], charsets := cs } = Except.ok (b1 || b2) := by
  have h' := h
  simp only [PCP.validate, seqE_ok_iff] at h'
  obtain ⟨hA, hB, -, hD⟩ := h'
  rw [allOk_cons] at hD
  obtain ⟨h1, hD⟩ := hD
  rw [allOk_cons] at hD
  obtain ⟨h2, -⟩ := hD
  have hv1 : PCP.validate { rules := [r1], charsets := cs } = Except.ok () := by
    simp only [PCP.validate, seqE_ok_iff]
    refine ⟨hA, hB, by simp [checkIf], ?_⟩
    rw [allOk_cons]
    exact ⟨h1, rfl⟩
  have hv2 : PCP.validate { rules := [r2], charsets := cs } = Except.ok () := by
    simp only [PCP.validate, seqE_ok_iff]
    refine ⟨hA, hB, by simp [checkIf], ?_⟩
    rw [allOk_cons]
    exact ⟨h2, rfl⟩
  cases e : classifyAll cs pw with
  | none =>
    exact ⟨false, false,
      by simp [check_password, hv1, e],
      by simp [check_password, hv2, e],
      by simp [check_password, h, e]⟩
  | some mapped =>
    refine ⟨check_password_against_rule pw r1 cs mapped,
            check_password_against_rule pw r2 cs mapped, ?_, ?_, ?_⟩ <;>
      simp [check_password, hv1, hv2, h, e]

/-- Claim C6, witness: a valid two-rule policy over a two-charset table,
checked on the one-character password `"a"`. -/
theorem claim_C6_or_semantics_witness :
    ∃ b1 b2,
      check_password [Char.ofNat 97] { rules := [twinRule1], charsets := twinTable } =
        Except.ok b1 ∧
      check_password [Char.ofNat 97] { rules := [twinRule2], charsets := twinTable } =
        Except.ok b2 ∧
      check_password [Char.ofNat 97] { rules := [twinRule1, twinRule2], charsets := twinTable } =
        Except.ok (b1 || b2) :=
  claim_C6_or_semantics [Char.ofNat 97] twinRule1 twinRule2 twinTable (by rfl)

/-- Claim C7.  If some character of the password belongs to no charset of
a valid policy's table, `check` returns `Except.ok false` — no error is
raised, and the result does not depend on the policy's rules (the
classification loop rejects before any rule is evaluated). -/
theorem claim_C7_unclassified_char_false (pw : List Char) (pcp : PCP) (c : Char)
    (hv : PCP.validate pcp = Except.ok ())
    (hc : c ∈ pw)
    (hn : ∀ kv ∈ pcp.charsets, kv.2.contains c = false) :
    check_password pw pcp = Except.ok false := by
  have hcl : classifyChar pcp.charsets c = none :=
    findIdxAux_eq_none (fun kv hkv => hn kv hkv) 0
  have hall : classifyAll pcp.charsets pw = none := classifyAll_eq_none hc hcl
  simp [check_password, hv, hall]

/-- Claim C7, witness: the character `b` belongs to no charset of
`tinyPolicy`, so checking `"b"` yields `false`. -/
theorem claim_C7_unclassified_char_false_witness :
    check_password [Char.ofNat 98] tinyPolicy = Except.ok false :=
  claim_C7_unclassified_char_false [Char.ofNat 98] tinyPolicy (Char.ofNat 98)
    (by rfl) (by simp) (by decide)

/-- Claim C9.  In a validated policy, any rule carrying a charset
requirement whose `required_locations` contains position 0 is
unsatisfiable: position 0 passes both the `location >= 0` and the
`location <= 0` branch of the evaluation loop, and the second branch reads
`mapped_password[password.length]`, which is out of range, so the rule
evaluation returns `false` on every password. -/
theorem claim_C9_location_zero_unsatisfiable
    (pcp : PCP) (r : PCPRule) (m : List (String × PCPCharsetRequirement))
    (key : String) (req : PCPCharsetRequirement) (locs : List Int)
    (hv : PCP.validate pcp = Except.ok ())
    (hr : r ∈ pcp.rules)
    (hm : r.charset_requirements = some m)
    (hk : (key, req) ∈ m)
    (hl : req.required_locations = some locs)
    (h0 : (0 : Int) ∈ locs)
    (pw : List Char) (mapped : List Nat)
    (hlen : mapped.length = pw.length) :
    check_password_against_rule pw r pcp.charsets mapped = false := by
  have hrule : r.validateRule (charsetKeys pcp.charsets) = Except.ok () := by
    have h := hv
    simp only [PCP.validate, seqE_ok_iff] at h
    exact allOk_mem h.2.2.2 hr
  have hcontains : (charsetKeys pcp.charsets).contains key = true := by
    simp only [PCPRule.validateRule, seqE_ok_iff] at hrule
    have hloop := hrule.2.2.2.2.2.2.1
    rw [hm] at hloop
    have h2 := allOk_mem hloop hk
    rw [seqE_ok_iff] at h2
    have h3 := checkIf_ok_iff.mp h2.1
    simpa using h3
  obtain ⟨i, hi⟩ : ∃ i, charsetIdx pcp.charsets key = some i := by
    have hmem : key ∈ pcp.charsets.map Prod.fst :=
      jsSetAux_subset (by simpa using hcontains)
    obtain ⟨kv, hkv, hfst⟩ := List.mem_map.mp hmem
    exact Option.isSome_iff_exists.mp
      (findIdxAux_isSome hkv (by simp [hfst]) 0)
  have hnone : jsIndex mapped (pw.length : Int) = none := by
    have h1 : ¬((pw.length : Int) < 0) := by omega
    have h2 : ((pw.length : Int)).toNat = pw.length := by omega
    simp only [jsIndex, if_neg h1, h2]
    exact List.get?_eq_none.mpr (by omega)
  have h4 : (locs.any (fun loc =>
      (decide (loc ≥ 0) && (jsIndex mapped loc != charsetIdx pcp.charsets key)) ||
      (decide (loc ≤ 0) &&
        (jsIndex mapped ((pw.length : Int) + loc) != charsetIdx pcp.charsets key)))) = true := by
    refine List.any_eq_true.mpr ⟨0, h0, ?_⟩
    simp [hi, hnone]
  have hcr : crSatisfied pw mapped (charsetIdx pcp.charsets key) req = false := by
    simp only [crSatisfied, hl]
    rw [h4]
    simp
  have hall : (m.all (fun kv =>
      crSatisfied pw mapped (charsetIdx pcp.charsets kv.1) kv.2)) = false := by
    cases hA : (m.all (fun kv =>
        crSatisfied pw mapped (charsetIdx pcp.charsets kv.1) kv.2)) with
    | false => rfl
    | true =>
      have hx := List.all_eq_true.mp hA (key, req) hk
      simp only at hx
      rw [hcr] at hx
      cases hx
  simp only [check_password_against_rule, hm]
  simp [hall]

/-- Claim C9, witness: the validated policy `policyLocationZero` requires
charset `d` at position 0; its rule rejects even the password `"0"`,
whose single character is a `d` at index 0. -/
theorem claim_C9_location_zero_unsatisfiable_witness :
    check_password_against_rule [Char.ofNat 48] ruleLocationZero
      policyLocationZero.charsets [0] = false :=
  claim_C9_location_zero_unsatisfiable policyLocationZero ruleLocationZero
    [(("d"), reqLocationZero)] ("d") reqLocationZero [0]
    (by rfl) (by simp [policyLocationZero]) (by rfl) (by simp) (by rfl) (by simp)
    [Char.ofNat 48] [0] (by rfl)

/-- Claim C10.  A policy that validates accepts no empty password:
validation forces `min_length ≥ 1` on every rule, and the length clause
of every rule then rejects the empty string, so `check` returns `false`. -/
theorem claim_C10_empty_password_false (pcp : PCP)
    (hv : PCP.validate pcp = Except.ok ()) :
    check_password [] pcp = Except.ok false := by
  have hrules : allOk (fun r => r.validateRule (charsetKeys pcp.charsets)) pcp.rules =
      Except.ok () := by
    have h := hv
    simp only [PCP.validate, seqE_ok_iff] at h
    exact h.2.2.2
  have hany : (pcp.rules.any
      (fun r => check_password_against_rule [] r pcp.charsets [])) = false := by
    rw [List.any_eq_false]
    intro r hr
    have h := allOk_mem hrules hr
    simp only [PCPRule.validateRule, seqE_ok_iff, checkIf_ok_iff] at h
    have hmin : ¬(r.min_length < 1) := by simpa using h.1
    have hd : ((([] : List Char).length : Int) < r.min_length) := by
      simp only [List.length_nil, Nat.cast_zero]
      omega
    simp only [check_password_against_rule, decide_eq_true hd, Bool.not_true, Bool.false_and]
    simp
  simp [check_password, hv, classifyAll, hany]

/-- Claim C10, witness: the valid `tinyPolicy` rejects the empty
password. -/
theorem claim_C10_empty_password_false_witness :
    check_password [] tinyPolicy = Except.ok false :=
  claim_C10_empty_password_false tinyPolicy (by rfl)
